import Mathlib

/-!
RigelEngine renderer: texture ownership, render target binding, draw state.

A shallow embedding of `src/renderer/texture.hpp` and `src/renderer/texture_atlas.hpp`.

C++ objects live in a store that maps an address to the object living there
(`none`: no live object at that address).  A member function that takes
`*this` and `other` by reference is a function of the store and of the two
addresses, and reads and writes the store statement by statement, so that
the case `this == &other` is covered by the same definition.  An operation on
an object that is not alive has no defined result (`none`).
-/

namespace Rigel

/-! ## Data model -/

/-- A texture id (`TextureId`, an unsigned GL name); `0` means "no texture". -/
abbrev TextureId := Nat

/-- A framebuffer name (`GLuint`); `0` means "no framebuffer". -/
abbrev GLuint := Nat

/-- The address of an object. -/
abbrev Addr := Nat

/-- The data members of `OwningTexture`, with their default member initialisers. -/
structure OwningTexture where
  mId : TextureId := 0
  mWidth : Int := 0
  mHeight : Int := 0
  deriving DecidableEq, Repr

/-- The data members of `RenderTargetTexture`: the `OwningTexture` base subobject
and `mFboHandle`. -/
structure RenderTargetTexture where
  base : OwningTexture
  mFboHandle : GLuint
  deriving DecidableEq, Repr

/-- The live objects of type `α`, by address. -/
abbrev Store (α : Type) := Addr → Option α

namespace Store

/-- The store without any live object. -/
def empty {α : Type} : Store α := fun _ => none

/-- The store with the object at `a` replaced by (or created as) `o`. -/
def put {α : Type} (s : Store α) (a : Addr) (o : α) : Store α :=
  fun x => if x = a then some o else s x

/-- The store after the object at `a` has ceased to exist. -/
def erase {α : Type} (s : Store α) (a : Addr) : Store α :=
  fun x => if x = a then none else s x

/-- A write through a reference to the live object at `a`. -/
def modify {α : Type} (s : Store α) (a : Addr) (f : α → α) : Option (Store α) :=
  (s a).map fun o => s.put a (f o)

end Store

/-! ## `OwningTexture` -/

namespace OwningTexture

/-- The protected constructor `OwningTexture(TextureId id, int width, int height)`:
it initialises the three members from its arguments. -/
def mk3 (id : TextureId) (width height : Int) : OwningTexture :=
  { mId := id, mWidth := width, mHeight := height }

/-- The accessor `data()`. -/
def data (t : OwningTexture) : TextureId := t.mId

/-- The accessor `width()`. -/
def width (t : OwningTexture) : Int := t.mWidth

/-- The accessor `height()`. -/
def height (t : OwningTexture) : Int := t.mHeight

/-- The move constructor on the objects themselves: the new object is built by the
delegated `OwningTexture(other.mId, other.mWidth, other.mHeight)`, then
`other.mId = 0`.  Returns the new object and `other` afterwards. -/
def moveCtorObj (other : OwningTexture) : OwningTexture × OwningTexture :=
  let self := mk3 other.mId other.mWidth other.mHeight
  (self, { other with mId := 0 })

/-- The move constructor `OwningTexture(OwningTexture&& other)`: constructs a new
object at the address `self`, where no object lives yet. -/
def moveCtor (s : Store OwningTexture) (self other : Addr) : Option (Store OwningTexture) :=
  match s self, s other with
  | none, some o =>
    let r := moveCtorObj o
    some ((s.put self r.1).put other r.2)
  | _, _ => none

/-- The move assignment `operator=(OwningTexture&& other)`, statement by statement. -/
def moveAssign (s : Store OwningTexture) (self other : Addr) : Option (Store OwningTexture) := do
  -- mId = other.mId;
  let o ← s other
  let s ← s.modify self fun t => { t with mId := o.mId }
  -- mWidth = other.mWidth;
  let o ← s other
  let s ← s.modify self fun t => { t with mWidth := o.mWidth }
  -- mHeight = other.mHeight;
  let o ← s other
  let s ← s.modify self fun t => { t with mHeight := o.mHeight }
  -- other.mId = 0;
  s.modify other fun t => { t with mId := 0 }

end OwningTexture

/-! ## `RenderTargetTexture` -/

namespace RenderTargetTexture

/-- The move constructor on the objects themselves.  Returns the new object and
`other` afterwards. -/
def moveCtorObj (other : RenderTargetTexture) : RenderTargetTexture × RenderTargetTexture :=
  -- : OwningTexture(std::move(other))
  let r := OwningTexture.moveCtorObj other.base
  let other1 : RenderTargetTexture := { other with base := r.2 }
  -- , mFboHandle(other.mFboHandle)
  let self : RenderTargetTexture := { base := r.1, mFboHandle := other1.mFboHandle }
  -- other.mFboHandle = 0;
  (self, { other1 with mFboHandle := 0 })

/-- The move constructor `RenderTargetTexture(RenderTargetTexture&& other)`:
constructs a new object at the address `self`, where no object lives yet. -/
def moveCtor (s : Store RenderTargetTexture) (self other : Addr) :
    Option (Store RenderTargetTexture) :=
  match s self, s other with
  | none, some o =>
    let r := moveCtorObj o
    some ((s.put self r.1).put other r.2)
  | _, _ => none

/-- The `OwningTexture` base subobjects of the live render targets. -/
def bases (s : Store RenderTargetTexture) : Store OwningTexture :=
  fun a => (s a).map fun o => o.base

/-- The render targets with their base subobjects replaced by those of `b`. -/
def withBases (s : Store RenderTargetTexture) (b : Store OwningTexture) :
    Store RenderTargetTexture :=
  fun a =>
    match s a, b a with
    | some o, some t => some { o with base := t }
    | _, _ => none

/-- The move assignment `operator=(RenderTargetTexture&& other)`, statement by
statement. -/
def moveAssign (s : Store RenderTargetTexture) (self other : Addr) :
    Option (Store RenderTargetTexture) := do
  -- static_cast<OwningTexture&>(*this) = std::move(other);
  let b ← OwningTexture.moveAssign (bases s) self other
  let s := withBases s b
  -- mFboHandle = other.mFboHandle;
  let o ← s other
  let s ← s.modify self fun t => { t with mFboHandle := o.mFboHandle }
  -- other.mFboHandle = 0;
  s.modify other fun t => { t with mFboHandle := 0 }

end RenderTargetTexture

/-! ## Handles and the releases of their textures -/

/-- Modelled from the spec: the body of the destructor of `OwningTexture`, which is
declared in texture.hpp and defined in texture.cpp, not among the sources.
"Destruction releases the GPU resource exactly once; a handle whose resourceId
is the sentinel value performs no release."  The result lists the ids the
destructor passes to `destroyTexture`. -/
def dtorReleases (t : OwningTexture) : List TextureId :=
  if t.mId ≠ 0 then [t.mId] else []

/-- The live `OwningTexture` handles, and the calls of `destroyTexture` made so
far, oldest first, each with the address of the handle whose destructor made it. -/
structure World where
  objs : Store OwningTexture
  released : List (Addr × TextureId)

namespace World

/-- Move construction of a new handle at `self` from the handle at `other`; the
constructor calls nothing of the renderer. -/
def moveCtor (w : World) (self other : Addr) : Option World :=
  (OwningTexture.moveCtor w.objs self other).map fun s => { w with objs := s }

/-- Move assignment to the handle at `self` from the handle at `other`; the
operator calls nothing of the renderer. -/
def moveAssign (w : World) (self other : Addr) : Option World :=
  (OwningTexture.moveAssign w.objs self other).map fun s => { w with objs := s }

/-- Destruction of the handle at `self`, for a destructor whose body releases the
ids `body t` when run on the handle `t`. -/
def destroyWith (body : OwningTexture → List TextureId) (w : World) (self : Addr) :
    Option World :=
  (w.objs self).map fun t =>
    { objs := w.objs.erase self
      released := w.released ++ (body t).map fun id => (self, id) }

/-- Destruction of the handle at `self`. -/
def destroy (w : World) (self : Addr) : Option World :=
  destroyWith dtorReleases w self

/-- Destruction of the handles at the given addresses, in that order. -/
def destroyAll : World → List Addr → Option World
  | w, [] => some w
  | w, a :: as => (destroy w a).bind fun w1 => destroyAll w1 as

end World

/-- One move of a texture out of the handle that holds it. -/
inductive Move where
  /-- Move construction of a new handle at the given address. -/
  | construct (dst : Addr)
  /-- Move assignment to the live handle at the given address. -/
  | assign (dst : Addr)
  deriving DecidableEq, Repr

namespace Move

/-- The handle that receives the texture. -/
def dst : Move → Addr
  | construct d => d
  | assign d => d

/-- The move out of the handle at `src`. -/
def run (w : World) (src : Addr) : Move → Option World
  | construct d => w.moveCtor d src
  | assign d => w.moveAssign d src

end Move

/-- No two distinct live handles hold the same texture id other than `0`. -/
def SingleOwner (s : Store OwningTexture) : Prop :=
  ∀ a b ta tb, s a = some ta → s b = some tb → a ≠ b → ta.mId ≠ 0 → ta.mId ≠ tb.mId

/-! ## The renderer's state, `setupDefaultState` -/

/-- A `float`, stored as its IEEE-754 single precision bit pattern.  The code only
stores and copies these values. -/
abbrev F32 := Nat

/-- The bit pattern of `1.0f`. -/
def F32.one : F32 := 0x3F800000

/-- A `base::Vector`, that is a point with `int` coordinates; `{}` is `(0, 0)`. -/
structure Vector where
  x : Int := 0
  y : Int := 0
  deriving DecidableEq, Repr

/-- A `base::Point<float>`. -/
structure PointF where
  x : F32
  y : F32
  deriving DecidableEq, Repr

/-- A `base::Rect<int>`: top left corner and size. -/
structure Rect where
  topLeft : Vector
  size : Vector
  deriving DecidableEq, Repr

/-- A render target as the renderer names it (`Renderer::RenderTarget`); the type
is not among the sources and is kept as a plain handle. -/
abbrev RenderTarget := Nat

/-- The default render target: the screen. -/
def defaultRenderTarget : RenderTarget := 0

/-- Modelled from the spec: the state of `Renderer`, whose declaration
(renderer/renderer.hpp) is not among the sources: "currently active render target"
and "global draw state (translation, scale, clip rectangle)". -/
structure Renderer where
  mGlobalTranslation : Vector
  mGlobalScale : PointF
  mClipRect : Option Rect
  mCurrentRenderTarget : RenderTarget
  deriving DecidableEq, Repr

namespace Renderer

/-- Modelled from the spec: the setter `setGlobalTranslation` of the renderer. -/
def setGlobalTranslation (r : Renderer) (v : Vector) : Renderer :=
  { r with mGlobalTranslation := v }

/-- Modelled from the spec: the setter `setGlobalScale` of the renderer. -/
def setGlobalScale (r : Renderer) (v : PointF) : Renderer :=
  { r with mGlobalScale := v }

/-- Modelled from the spec: the setter `setClipRect` of the renderer; no rectangle
means that drawing is not clipped. -/
def setClipRect (r : Renderer) (c : Option Rect) : Renderer :=
  { r with mClipRect := c }

/-- Modelled from the spec: `currentRenderTarget` of the renderer
("queryCurrentRenderTarget() → targetHandle"). -/
def currentRenderTarget (r : Renderer) : RenderTarget :=
  r.mCurrentRenderTarget

/-- Modelled from the spec: `setRenderTarget` of the renderer, which makes the
given target the active one. -/
def setRenderTarget (r : Renderer) (t : RenderTarget) : Renderer :=
  { r with mCurrentRenderTarget := t }

end Renderer

/-- Modelled from the spec: `Renderer::StateSaver`, declared in renderer/renderer.hpp
which is not among the sources.  "Captures current global translation, scale, and
clip rectangle; ... restores the captured values on exit." -/
structure StateSaver where
  mGlobalTranslation : Vector
  mGlobalScale : PointF
  mClipRect : Option Rect
  deriving DecidableEq, Repr

namespace StateSaver

/-- Modelled from the spec: the constructor `StateSaver{pRenderer}` captures the
three values of the renderer as they are at that moment. -/
def capture (r : Renderer) : StateSaver :=
  { mGlobalTranslation := r.mGlobalTranslation
    mGlobalScale := r.mGlobalScale
    mClipRect := r.mClipRect }

/-- Modelled from the spec: the destructor of the saver sets the three captured
values again. -/
def restore (g : StateSaver) (r : Renderer) : Renderer :=
  ((r.setGlobalTranslation g.mGlobalTranslation).setGlobalScale g.mGlobalScale).setClipRect
    g.mClipRect

end StateSaver

/-- The function `setupDefaultState(Renderer* pRenderer)`: returns the saver and
the renderer as the function leaves it. -/
def setupDefaultState (r : Renderer) : StateSaver × Renderer :=
  -- auto saved = Renderer::StateSaver{pRenderer};
  let saved := StateSaver.capture r
  -- pRenderer->setGlobalTranslation({});
  let r := r.setGlobalTranslation {}
  -- pRenderer->setGlobalScale({1.0f, 1.0f});
  let r := r.setGlobalScale { x := F32.one, y := F32.one }
  -- pRenderer->setClipRect({});
  let r := r.setClipRect none
  -- return saved;
  (saved, r)

/-- A scope `{ auto guard = setupDefaultState(pRenderer); block }`.  The block
leaves the renderer in some state and either completes (`Except.ok`) or raises
an error (`Except.error`); the guard is destroyed when the scope is left, on
both paths.  Returns the renderer after the scope and the outcome of the block. -/
def withDefaultState {ε β : Type} (block : Renderer → Renderer × Except ε β) (r : Renderer) :
    Renderer × Except ε β :=
  let g := setupDefaultState r
  let b := block g.2
  (g.1.restore b.1, b.2)

/-! ## `RenderTargetTexture::Binder` -/

/-- The data member `mPreviousRenderTarget` of `RenderTargetTexture::Binder`
(`mpRenderer` points to the one renderer). -/
structure Binder where
  mPreviousRenderTarget : RenderTarget
  deriving DecidableEq, Repr

namespace Binder

/-- Modelled from the spec: the constructor of `Binder`, defined in texture.cpp which
is not among the sources: "query context's currently-active render target, record
it, instruct context to activate this guard's target". -/
def bind (r : Renderer) (target : RenderTarget) : Binder × Renderer :=
  ({ mPreviousRenderTarget := r.currentRenderTarget }, r.setRenderTarget target)

/-- Modelled from the spec: the destructor of `Binder`, defined in texture.cpp which
is not among the sources: "instruct context to re-activate the recorded previous
target". -/
def unbind (b : Binder) (r : Renderer) : Renderer :=
  r.setRenderTarget b.mPreviousRenderTarget

end Binder

/-- What a piece of code does with binders: it constructs one for a target, or it
leaves the scope of the innermost live one, which destroys it. -/
inductive BindEvent where
  | enter (target : RenderTarget)
  | leave
  deriving DecidableEq, Repr

/-- The renderer together with the live binders, innermost first. -/
structure BindState where
  renderer : Renderer
  live : List Binder
  deriving DecidableEq, Repr

/-- One event.  Leaving a scope without a live binder is not possible (`none`). -/
def BindState.step (s : BindState) : BindEvent → Option BindState
  | .enter t =>
    let r := Binder.bind s.renderer t
    some { renderer := r.2, live := r.1 :: s.live }
  | .leave =>
    match s.live with
    | [] => none
    | b :: bs => some { renderer := b.unbind s.renderer, live := bs }

/-- A sequence of events, in order. -/
def BindState.run : BindState → List BindEvent → Option BindState
  | s, [] => some s
  | s, e :: es => (s.step e).bind fun s1 => s1.run es

/-- The number of scopes open after the events, starting with `d` open scopes;
`none` when a scope is left that the events did not enter. -/
def depthAfter : Nat → List BindEvent → Option Nat
  | d, [] => some d
  | d, .enter _ :: es => depthAfter (d + 1) es
  | 0, .leave :: _ => none
  | d + 1, .leave :: es => depthAfter d es

/-- The events are properly nested scopes: every scope entered is left, innermost
first, and no other scope is left. -/
def Nested (es : List BindEvent) : Prop :=
  depthAfter 0 es = some 0

instance (es : List BindEvent) : Decidable (Nested es) := by
  unfold Nested
  infer_instance

/-- The renderer after the given binders have been destroyed, first to last. -/
def unwind (r : Renderer) : List Binder → Renderer
  | [] => r
  | b :: bs => unwind (b.unbind r) bs

/-! ## `TextureAtlas` -/

/-- A region of a texture (`TexCoords`); the type is not among the sources and is
kept as a rectangle. -/
abbrev TexCoords := Rect

/-- A source image (`data::Image`), of which only the size matters here. -/
structure Image where
  width : Nat
  height : Nat
  deriving DecidableEq, Repr

/-- The data members `mCoordinatesMap` and `mAtlasTexture` of `TextureAtlas`
(`mpRenderer` points to the one renderer). -/
structure TextureAtlas where
  mCoordinatesMap : List TexCoords
  mAtlasTexture : OwningTexture
  deriving DecidableEq, Repr

/-- The draw that the atlas asks of the renderer: texture, region of the texture,
destination rectangle. -/
structure DrawCall where
  texture : TextureId
  source : TexCoords
  dest : Rect
  deriving DecidableEq, Repr

/-- The error of a draw with an index outside of the coordinate map. -/
inductive AtlasError where
  | indexOutOfRange
  deriving DecidableEq, Repr

namespace TextureAtlas

/-- Modelled from the spec: the constructor of `TextureAtlas`, defined in
texture_atlas.cpp which is not among the sources: "pack them into one composite
texture ...; record, for each index i, the rectangle within the composite texture
occupied by images[i]".  The layout is left open by the spec and is a parameter:
`place images i` is the region of image `i`; `texture` is the handle of the
composite texture. -/
def construct (place : List Image → Nat → TexCoords) (texture : OwningTexture)
    (images : List Image) : TextureAtlas :=
  { mCoordinatesMap := (List.range images.length).map (place images)
    mAtlasTexture := texture }

/-- Modelled from the spec: the member `draw(int index, const Rect& destRect) const`,
defined in texture_atlas.cpp which is not among the sources: "looks up
coordinateMap[index]; fails with an out-of-range error if index is not in [0, N);
otherwise issues a textured draw of that sub-region scaled into destRegion".
Returns the atlas afterwards and the draw issued or the error. -/
def draw (atlas : TextureAtlas) (index : Int) (destRect : Rect) :
    TextureAtlas × Except AtlasError DrawCall :=
  if 0 ≤ index then
    match atlas.mCoordinatesMap.get? index.toNat with
    | some region =>
      (atlas, .ok { texture := atlas.mAtlasTexture.data, source := region, dest := destRect })
    | none => (atlas, .error .indexOutOfRange)
  else (atlas, .error .indexOutOfRange)

end TextureAtlas

/-! ## Concrete inputs -/

/-- Two handles: texture 5 of size 1 x 2 at address 0, texture 7 of size 3 x 4 at
address 1. -/
def twoHandles : Store OwningTexture :=
  (Store.empty.put 0 ⟨5, 1, 2⟩).put 1 ⟨7, 3, 4⟩

/-- Two render targets: texture 5 of size 1 x 2 with framebuffer 8 at address 0,
texture 7 of size 3 x 4 with framebuffer 9 at address 1. -/
def twoTargets : Store RenderTargetTexture :=
  (Store.empty.put 0 ⟨⟨5, 1, 2⟩, 8⟩).put 1 ⟨⟨7, 3, 4⟩, 9⟩

/-- The two handles, and no release so far. -/
def twoHandlesWorld : World :=
  { objs := twoHandles, released := [] }

/-! ## Lemmas: the store -/

theorem put_same {α : Type} (s : Store α) (a : Addr) (o : α) : s.put a o a = some o := by
  simp [Store.put]

theorem put_other {α : Type} (s : Store α) (a x : Addr) (o : α) (h : x ≠ a) :
    s.put a o x = s x := by
  simp [Store.put, h]

theorem erase_same {α : Type} (s : Store α) (a : Addr) : s.erase a a = none := by
  simp [Store.erase]

theorem erase_other {α : Type} (s : Store α) (a x : Addr) (h : x ≠ a) :
    s.erase a x = s x := by
  simp [Store.erase, h]

/-! ## Lemmas: the moves of `OwningTexture` in closed form -/

theorem moveCtor_fresh (s : Store OwningTexture) (self other : Addr) (o : OwningTexture)
    (hself : s self = none) (hother : s other = some o) :
    OwningTexture.moveCtor s self other
      = some ((s.put self ⟨o.mId, o.mWidth, o.mHeight⟩).put other { o with mId := 0 }) := by
  simp [OwningTexture.moveCtor, hself, hother, OwningTexture.moveCtorObj, OwningTexture.mk3]

theorem moveAssign_distinct (s : Store OwningTexture) (self other : Addr)
    (d o : OwningTexture) (hself : s self = some d) (hother : s other = some o)
    (hne : self ≠ other) :
    OwningTexture.moveAssign s self other
      = some ((s.put self ⟨o.mId, o.mWidth, o.mHeight⟩).put other { o with mId := 0 }) := by
  have hne2 : other ≠ self := fun h => hne h.symm
  simp only [OwningTexture.moveAssign, Store.modify, bind, Option.bind, hother, hself,
    Option.map, put_same, put_other _ _ _ _ hne2]
  congr 1
  funext x
  simp only [Store.put]
  by_cases h1 : x = other <;> by_cases h2 : x = self <;> simp [h1, h2]

theorem moveAssign_self (s : Store OwningTexture) (self : Addr)
    (o : OwningTexture) (hself : s self = some o) :
    OwningTexture.moveAssign s self self = some (s.put self { o with mId := 0 }) := by
  simp only [OwningTexture.moveAssign, Store.modify, bind, Option.bind, hself,
    Option.map, put_same]
  congr 1
  funext x
  simp only [Store.put]
  by_cases h1 : x = self <;> simp [h1]

theorem moveAssign_live (s s' : Store OwningTexture) (self other : Addr)
    (h : OwningTexture.moveAssign s self other = some s') :
    ∃ d o, s self = some d ∧ s other = some o := by
  cases hs : s self with
  | none =>
    cases ho : s other <;>
      simp [OwningTexture.moveAssign, Store.modify, bind, Option.bind, hs, ho] at h
  | some d =>
    cases ho : s other with
    | none => simp [OwningTexture.moveAssign, Store.modify, bind, Option.bind, ho] at h
    | some o => exact ⟨d, o, rfl, rfl⟩

theorem moveCtor_live (s s' : Store OwningTexture) (self other : Addr)
    (h : OwningTexture.moveCtor s self other = some s') :
    ∃ o, s self = none ∧ s other = some o := by
  cases hs : s self with
  | some d => simp [OwningTexture.moveCtor, hs] at h
  | none =>
    cases ho : s other with
    | none => simp [OwningTexture.moveCtor, hs, ho] at h
    | some o => exact ⟨o, rfl, rfl⟩

/-! ## C1, C10: moves of `OwningTexture` -/

/-- C1: moving an `OwningTexture` source with id `i`, width `w` and height `h` into a
distinct handle, by the move constructor (a new handle at a free address) or by
move assignment (into any other live handle), leaves the destination with id `i`,
width `w` and height `h`, and the source with id `0`. -/
theorem owningTexture_move_transfers (s : Store OwningTexture) (dst src : Addr)
    (i : TextureId) (w h : Int)
    (hsrc : s src = some ⟨i, w, h⟩) (hne : dst ≠ src) :
    (s dst = none →
      ∃ s', OwningTexture.moveCtor s dst src = some s' ∧
        s' dst = some ⟨i, w, h⟩ ∧ s' src = some ⟨0, w, h⟩) ∧
    (∀ d, s dst = some d →
      ∃ s', OwningTexture.moveAssign s dst src = some s' ∧
        s' dst = some ⟨i, w, h⟩ ∧ s' src = some ⟨0, w, h⟩) := by
  constructor
  · intro hdst
    refine ⟨_, moveCtor_fresh s dst src _ hdst hsrc, ?_, ?_⟩
    · rw [put_other _ _ _ _ hne, put_same]
    · rw [put_same]
  · intro d hdst
    refine ⟨_, moveAssign_distinct s dst src d _ hdst hsrc hne, ?_, ?_⟩
    · rw [put_other _ _ _ _ hne, put_same]
    · rw [put_same]

/-- Witness of C1: texture 7 of size 3 x 4 moves from the handle at address 1
into a new handle at address 2, and into the live handle at address 0. -/
theorem owningTexture_move_transfers_witness :
    (∃ s', OwningTexture.moveCtor twoHandles 2 1 = some s' ∧
      s' 2 = some ⟨7, 3, 4⟩ ∧ s' 1 = some ⟨0, 3, 4⟩) ∧
    (∃ s', OwningTexture.moveAssign twoHandles 0 1 = some s' ∧
      s' 0 = some ⟨7, 3, 4⟩ ∧ s' 1 = some ⟨0, 3, 4⟩) := by
  have hsrc : twoHandles 1 = some ⟨7, 3, 4⟩ := by decide
  have hfree : twoHandles 2 = none := by decide
  have hdst : twoHandles 0 = some ⟨5, 1, 2⟩ := by decide
  exact ⟨(owningTexture_move_transfers twoHandles 2 1 7 3 4 hsrc (by decide)).1 hfree,
    (owningTexture_move_transfers twoHandles 0 1 7 3 4 hsrc (by decide)).2 _ hdst⟩

/-- C10: move assignment of an `OwningTexture` to itself is not a no-op: a handle
with id `i`, width `w` and height `h` has id `0` afterwards, width and height
still `w` and `h` (so it has changed when `i` is not `0`), and the assignment
makes no call of `destroyTexture`. -/
theorem owningTexture_self_move_assign_clears_id (w : World) (a : Addr)
    (i : TextureId) (wd ht : Int) (ha : w.objs a = some ⟨i, wd, ht⟩) :
    ∃ w', w.moveAssign a a = some w' ∧
      w'.objs a = some ⟨0, wd, ht⟩ ∧
      w'.released = w.released ∧
      (i ≠ 0 → w'.objs a ≠ w.objs a) := by
  refine ⟨{ w with objs := w.objs.put a ⟨0, wd, ht⟩ }, ?_, ?_, ?_, ?_⟩
  · simp only [World.moveAssign, moveAssign_self w.objs a _ ha, Option.map]
  · simp only [put_same]
  · rfl
  · intro hi heq
    simp only [put_same, ha, Option.some.injEq, OwningTexture.mk.injEq] at heq
    exact hi heq.1.symm

/-- Witness of C10: the handle at address 0, which holds texture 5 of size
1 x 2, is assigned to itself. -/
theorem owningTexture_self_move_assign_clears_id_witness :
    ∃ w', twoHandlesWorld.moveAssign 0 0 = some w' ∧
      w'.objs 0 = some ⟨0, 1, 2⟩ ∧
      w'.released = twoHandlesWorld.released ∧
      ((5 : TextureId) ≠ 0 → w'.objs 0 ≠ twoHandlesWorld.objs 0) := by
  have h0 : twoHandlesWorld.objs 0 = some ⟨5, 1, 2⟩ := by decide
  exact owningTexture_self_move_assign_clears_id twoHandlesWorld 0 5 1 2 h0

/-! ## C9: moves of `RenderTargetTexture` -/

theorem renderTarget_moveAssign_distinct (s : Store RenderTargetTexture) (self other : Addr)
    (d o : RenderTargetTexture) (hself : s self = some d) (hother : s other = some o)
    (hne : self ≠ other) :
    ∃ s', RenderTargetTexture.moveAssign s self other = some s' ∧
      s' self = some ⟨⟨o.base.mId, o.base.mWidth, o.base.mHeight⟩, o.mFboHandle⟩ ∧
      s' other = some ⟨{ o.base with mId := 0 }, 0⟩ := by
  have hne2 : other ≠ self := fun h => hne h.symm
  have hbs : RenderTargetTexture.bases s self = some d.base := by
    simp [RenderTargetTexture.bases, hself]
  have hbo : RenderTargetTexture.bases s other = some o.base := by
    simp [RenderTargetTexture.bases, hother]
  have hb := moveAssign_distinct (RenderTargetTexture.bases s) self other _ _ hbs hbo hne
  simp only [RenderTargetTexture.moveAssign, hb, bind, Option.bind, Store.modify,
    RenderTargetTexture.withBases, hother, hself, put_same, put_other _ _ _ _ hne,
    put_other _ _ _ _ hne2, Option.map]
  refine ⟨_, rfl, ?_, ?_⟩
  · rw [put_other _ _ _ _ hne, put_same]
  · rw [put_same]

/-- C9: moving a `RenderTargetTexture` source with texture id `i`, width `w`,
height `h` and framebuffer handle `f` into a distinct object, by the move
constructor (a new object at a free address) or by move assignment (into any
other live object), leaves the destination with `(i, w, h, f)` and the source
with texture id `0` and framebuffer handle `0`. -/
theorem renderTarget_move_transfers (s : Store RenderTargetTexture) (dst src : Addr)
    (i : TextureId) (w h : Int) (f : GLuint)
    (hsrc : s src = some ⟨⟨i, w, h⟩, f⟩) (hne : dst ≠ src) :
    (s dst = none →
      ∃ s', RenderTargetTexture.moveCtor s dst src = some s' ∧
        s' dst = some ⟨⟨i, w, h⟩, f⟩ ∧ s' src = some ⟨⟨0, w, h⟩, 0⟩) ∧
    (∀ d, s dst = some d →
      ∃ s', RenderTargetTexture.moveAssign s dst src = some s' ∧
        s' dst = some ⟨⟨i, w, h⟩, f⟩ ∧ s' src = some ⟨⟨0, w, h⟩, 0⟩) := by
  constructor
  · intro hdst
    refine ⟨(s.put dst ⟨⟨i, w, h⟩, f⟩).put src ⟨⟨0, w, h⟩, 0⟩, ?_, ?_, ?_⟩
    · simp [RenderTargetTexture.moveCtor, hdst, hsrc, RenderTargetTexture.moveCtorObj,
        OwningTexture.moveCtorObj, OwningTexture.mk3]
    · rw [put_other _ _ _ _ hne, put_same]
    · rw [put_same]
  · intro d hdst
    exact renderTarget_moveAssign_distinct s dst src d _ hdst hsrc hne

/-- Witness of C9: the render target with texture 7, size 3 x 4 and framebuffer 9
moves from address 1 into a new object at address 2, and into the live object at
address 0. -/
theorem renderTarget_move_transfers_witness :
    (∃ s', RenderTargetTexture.moveCtor twoTargets 2 1 = some s' ∧
      s' 2 = some ⟨⟨7, 3, 4⟩, 9⟩ ∧ s' 1 = some ⟨⟨0, 3, 4⟩, 0⟩) ∧
    (∃ s', RenderTargetTexture.moveAssign twoTargets 0 1 = some s' ∧
      s' 0 = some ⟨⟨7, 3, 4⟩, 9⟩ ∧ s' 1 = some ⟨⟨0, 3, 4⟩, 0⟩) := by
  have hsrc : twoTargets 1 = some ⟨⟨7, 3, 4⟩, 9⟩ := by decide
  have hfree : twoTargets 2 = none := by decide
  have hdst : twoTargets 0 = some ⟨⟨5, 1, 2⟩, 8⟩ := by decide
  exact ⟨(renderTarget_move_transfers twoTargets 2 1 7 3 4 9 hsrc (by decide)).1 hfree,
    (renderTarget_move_transfers twoTargets 0 1 7 3 4 9 hsrc (by decide)).2 _ hdst⟩

/-! ## C6, C7: `setupDefaultState` -/

/-- C7: immediately after `setupDefaultState` returns, the global translation is
the zero vector, the global scale is `(1.0f, 1.0f)` and the clip rectangle is
unset, whatever the three values were before the call. -/
theorem setupDefaultState_sets_defaults (r : Renderer) :
    (setupDefaultState r).2.mGlobalTranslation = ⟨0, 0⟩ ∧
    (setupDefaultState r).2.mGlobalScale = ⟨F32.one, F32.one⟩ ∧
    (setupDefaultState r).2.mClipRect = none := by
  simp [setupDefaultState, Renderer.setGlobalTranslation, Renderer.setGlobalScale,
    Renderer.setClipRect]

/-- C6: for every renderer state and every guarded block, also one that changes
translation, scale or clip rectangle, and also one that exits by raising an
error, the translation, scale and clip rectangle after the guard returned by
`setupDefaultState` is destroyed are those that held immediately before
`setupDefaultState` was called; the block runs with the defaults, and its outcome
is passed on. -/
theorem setupDefaultState_guard_restores {ε β : Type}
    (block : Renderer → Renderer × Except ε β) (r : Renderer) :
    (withDefaultState block r).1.mGlobalTranslation = r.mGlobalTranslation ∧
    (withDefaultState block r).1.mGlobalScale = r.mGlobalScale ∧
    (withDefaultState block r).1.mClipRect = r.mClipRect ∧
    (withDefaultState block r).2 = (block (setupDefaultState r).2).2 := by
  simp [withDefaultState, setupDefaultState, StateSaver.restore, StateSaver.capture,
    Renderer.setGlobalTranslation, Renderer.setGlobalScale, Renderer.setClipRect]

/-! ## C8: `TextureAtlas` -/

theorem rangeMap_lookup {β : Type} (n i : Nat) (g : Nat → β) :
    ((List.range n).map g).get? i = if i < n then some (g i) else none := by
  by_cases h : i < n
  · simp [h, List.getElem?_range]
  · simp [h]
    omega

/-- C8: a `TextureAtlas` constructed from `N` source images has a coordinate map of
exactly `N` entries; for every `int` index, `draw(index, R)` fails with the
out-of-range error if and only if the index is not in `[0, N)` (so for every
negative index), and otherwise issues the draw of the atlas texture with exactly
the region recorded for `images[index]` into `R`; `draw` leaves the atlas, and so
the coordinate map, as it is. -/
theorem textureAtlas_draw_by_index (place : List Image → Nat → TexCoords)
    (texture : OwningTexture) (images : List Image) (index : Int) (destRect : Rect) :
    (TextureAtlas.construct place texture images).mCoordinatesMap.length = images.length ∧
    (((TextureAtlas.construct place texture images).draw index destRect).2
        = .error .indexOutOfRange ↔ ¬ (0 ≤ index ∧ index < images.length)) ∧
    ((0 ≤ index ∧ index < images.length) →
      ((TextureAtlas.construct place texture images).draw index destRect).2
        = .ok { texture := texture.mId, source := place images index.toNat, dest := destRect }) ∧
    ((TextureAtlas.construct place texture images).draw index destRect).1
        = TextureAtlas.construct place texture images := by
  have hlt : 0 ≤ index → (index.toNat < images.length ↔ index < images.length) := by
    intro h
    omega
  refine ⟨by simp [TextureAtlas.construct], ?_, ?_, ?_⟩
  · simp only [TextureAtlas.draw, TextureAtlas.construct, rangeMap_lookup]
    by_cases h0 : 0 ≤ index
    · by_cases h1 : index.toNat < images.length
      · have h2 := (hlt h0).1 h1
        simp [h0, h1, h2]
      · have h2 : ¬ index < images.length := fun h => h1 ((hlt h0).2 h)
        simp [h0, h1, h2]
    · simp [h0]
  · rintro ⟨h0, h2⟩
    have h1 := (hlt h0).2 h2
    simp [TextureAtlas.draw, TextureAtlas.construct, rangeMap_lookup, h0, h1,
      OwningTexture.data]
  · simp only [TextureAtlas.draw]
    split
    · split <;> rfl
    · rfl

/-! ## C5: nested binders -/

theorem unbind_bind (r : Renderer) (t : RenderTarget) :
    (Binder.bind r t).1.unbind (Binder.bind r t).2 = r := by
  simp [Binder.bind, Binder.unbind, Renderer.setRenderTarget, Renderer.currentRenderTarget]

theorem run_append (s : BindState) (es fs : List BindEvent) :
    s.run (es ++ fs) = (s.run es).bind fun s1 => s1.run fs := by
  induction es generalizing s with
  | nil => simp [BindState.run]
  | cons e es ih =>
    simp only [List.cons_append, BindState.run]
    cases s.step e with
    | none => rfl
    | some s1 => simpa using ih s1

/-- Events that keep `top.length` scopes balanced to depth `d` run to the end,
never touch the binders below `top`, and leave the renderer such that destroying
the binders still open gives what destroying `top` gave before. -/
theorem run_depth (es : List BindEvent) :
    ∀ (r : Renderer) (top below : List Binder) (d : Nat),
      depthAfter top.length es = some d →
      ∃ r1 top1, BindState.run ⟨r, top ++ below⟩ es = some ⟨r1, top1 ++ below⟩ ∧
        top1.length = d ∧ unwind r1 top1 = unwind r top := by
  induction es with
  | nil =>
    intro r top below d h
    simp only [depthAfter, Option.some.injEq] at h
    exact ⟨r, top, rfl, h, rfl⟩
  | cons e es ih =>
    intro r top below d h
    cases e with
    | enter t =>
      simp only [depthAfter] at h
      obtain ⟨r1, top1, hrun, hlen, hun⟩ :=
        ih (Binder.bind r t).2 ((Binder.bind r t).1 :: top) below d (by simpa using h)
      refine ⟨r1, top1, ?_, hlen, ?_⟩
      · simpa [BindState.run, BindState.step] using hrun
      · rw [hun]
        simp only [unwind, unbind_bind]
    | leave =>
      cases top with
      | nil => simp [depthAfter] at h
      | cons b bs =>
        simp only [List.length_cons, depthAfter] at h
        obtain ⟨r1, top1, hrun, hlen, hun⟩ := ih (b.unbind r) bs below d h
        refine ⟨r1, top1, ?_, hlen, ?_⟩
        · simpa [BindState.run, BindState.step] using hrun
        · rw [hun]
          rfl

theorem run_nested (es : List BindEvent) (h : Nested es) (s : BindState) :
    s.run es = some s := by
  obtain ⟨r1, top1, hrun, hlen, hun⟩ := run_depth es s.renderer [] s.live 0 h
  have htop : top1 = [] := List.length_eq_zero.mp hlen
  subst htop
  simp only [unwind] at hun
  subst hun
  simpa using hrun

/-- C5: for a binder constructed for the target `t` when the renderer is in the
state `r`, with any properly nested (LIFO) constructions and destructions of
further binders `inner` during its life time: all events run; after the
destruction of this outermost binder the active render target is the one
observed immediately before its construction (and the live binders are those
from before); when the inner binders are destroyed, the target `t` of the
enclosing binder is active again; and if the default target was active at the
start, it is active at the end. -/
theorem binder_nesting_restores_target (s : BindState) (t : RenderTarget)
    (inner : List BindEvent) (h : Nested inner) :
    (∃ s1, s.run (.enter t :: inner ++ [.leave]) = some s1 ∧
      s1.renderer.currentRenderTarget = s.renderer.currentRenderTarget ∧
      s1.live = s.live ∧
      (s.renderer.currentRenderTarget = defaultRenderTarget →
        s1.renderer.currentRenderTarget = defaultRenderTarget)) ∧
    (∃ s2, s.run (.enter t :: inner) = some s2 ∧
      s2.renderer.currentRenderTarget = t ∧
      s2.live = ⟨s.renderer.currentRenderTarget⟩ :: s.live) := by
  have hin : s.run (.enter t :: inner)
      = some ⟨(Binder.bind s.renderer t).2, (Binder.bind s.renderer t).1 :: s.live⟩ := by
    simp only [BindState.run, BindState.step, Option.bind]
    exact run_nested inner h _
  constructor
  · refine ⟨s, ?_, rfl, rfl, fun h0 => h0⟩
    have happ : BindEvent.enter t :: inner ++ [BindEvent.leave]
        = (BindEvent.enter t :: inner) ++ [BindEvent.leave] := rfl
    rw [happ, run_append, hin]
    simp only [Option.bind, BindState.run, BindState.step, unbind_bind]
  · exact ⟨_, hin, rfl, rfl⟩

/-- Witness of C5: with the target 3 active, a binder for the target 1 is
constructed, within its scope a binder for 2 and, within that one, a binder for
4, and after these two have been destroyed a binder for 5. -/
theorem binder_nesting_restores_target_witness :
    (∃ s1, BindState.run ⟨⟨⟨0, 0⟩, ⟨F32.one, F32.one⟩, none, 3⟩, []⟩
        (.enter 1 :: [.enter 2, .enter 4, .leave, .leave, .enter 5, .leave] ++ [.leave])
          = some s1 ∧
      s1.renderer.currentRenderTarget = 3 ∧
      s1.live = [] ∧
      ((3 : RenderTarget) = defaultRenderTarget →
        s1.renderer.currentRenderTarget = defaultRenderTarget)) ∧
    (∃ s2, BindState.run ⟨⟨⟨0, 0⟩, ⟨F32.one, F32.one⟩, none, 3⟩, []⟩
        (.enter 1 :: [.enter 2, .enter 4, .leave, .leave, .enter 5, .leave]) = some s2 ∧
      s2.renderer.currentRenderTarget = 1 ∧
      s2.live = [⟨3⟩]) :=
  binder_nesting_restores_target ⟨⟨⟨0, 0⟩, ⟨F32.one, F32.one⟩, none, 3⟩, []⟩ 1
    [.enter 2, .enter 4, .leave, .leave, .enter 5, .leave] (by decide)

/-! ## C4: single ownership -/

theorem singleOwner_move (s s' : Store OwningTexture) (self other : Addr) (o : OwningTexture)
    (hinv : SingleOwner s) (hother : s other = some o) (hne : self ≠ other)
    (hrest : ∀ x, x ≠ self → x ≠ other → s' x = s x)
    (hself' : s' self = some ⟨o.mId, o.mWidth, o.mHeight⟩)
    (hother' : s' other = some { o with mId := 0 }) :
    SingleOwner s' := by
  intro a b ta tb ha hb hab hnz heq
  by_cases hao : a = other
  · subst hao
    rw [hother'] at ha
    cases ha
    exact hnz rfl
  by_cases has : a = self
  · subst has
    rw [hself'] at ha
    cases ha
    by_cases hbo : b = other
    · subst hbo
      rw [hother'] at hb
      cases hb
      exact hnz heq
    · rw [hrest b (fun h => hab h.symm) hbo] at hb
      exact hinv other b o tb hother hb (fun h => hbo h.symm) hnz heq
  rw [hrest a has hao] at ha
  by_cases hbo : b = other
  · subst hbo
    rw [hother'] at hb
    cases hb
    exact hnz heq
  by_cases hbs : b = self
  · subst hbs
    rw [hself'] at hb
    cases hb
    exact hinv a other ta o ha hother hao hnz heq
  rw [hrest b hbs hbo] at hb
  exact hinv a b ta tb ha hb hab hnz heq

theorem singleOwner_clear (s : Store OwningTexture) (a : Addr) (o : OwningTexture)
    (hinv : SingleOwner s) : SingleOwner (s.put a { o with mId := 0 }) := by
  intro x y tx ty hx hy hxy hnz heq
  by_cases hxa : x = a
  · subst hxa
    rw [put_same] at hx
    cases hx
    exact hnz rfl
  rw [put_other _ _ _ _ hxa] at hx
  by_cases hya : y = a
  · subst hya
    rw [put_same] at hy
    cases hy
    exact hnz heq
  rw [put_other _ _ _ _ hya] at hy
  exact hinv x y tx ty hx hy hxy hnz heq

theorem singleOwner_erase (s : Store OwningTexture) (a : Addr)
    (hinv : SingleOwner s) : SingleOwner (s.erase a) := by
  intro x y tx ty hx hy hxy hnz heq
  by_cases hxa : x = a
  · subst hxa
    rw [erase_same] at hx
    cases hx
  by_cases hya : y = a
  · subst hya
    rw [erase_same] at hy
    cases hy
  rw [erase_other _ _ _ hxa] at hx
  rw [erase_other _ _ _ hya] at hy
  exact hinv x y tx ty hx hy hxy hnz heq

theorem singleOwner_moveCtor (s s' : Store OwningTexture) (self other : Addr)
    (hinv : SingleOwner s) (h : OwningTexture.moveCtor s self other = some s') :
    SingleOwner s' := by
  obtain ⟨o, hself, hother⟩ := moveCtor_live s s' self other h
  have hne : self ≠ other := by
    intro he
    rw [he, hother] at hself
    cases hself
  rw [moveCtor_fresh s self other o hself hother] at h
  cases h
  refine singleOwner_move s _ self other o hinv hother hne ?_ ?_ ?_
  · intro x hxs hxo
    rw [put_other _ _ _ _ hxo, put_other _ _ _ _ hxs]
  · rw [put_other _ _ _ _ hne, put_same]
  · rw [put_same]

theorem singleOwner_moveAssign (s s' : Store OwningTexture) (self other : Addr)
    (hinv : SingleOwner s) (h : OwningTexture.moveAssign s self other = some s') :
    SingleOwner s' := by
  obtain ⟨d, o, hself, hother⟩ := moveAssign_live s s' self other h
  by_cases hne : self = other
  · subst hne
    rw [moveAssign_self s self o hother] at h
    cases h
    exact singleOwner_clear s self o hinv
  · rw [moveAssign_distinct s self other d o hself hother hne] at h
    cases h
    refine singleOwner_move s _ self other o hinv hother hne ?_ ?_ ?_
    · intro x hxs hxo
      rw [put_other _ _ _ _ hxo, put_other _ _ _ _ hxs]
    · rw [put_other _ _ _ _ hne, put_same]
    · rw [put_same]

theorem twoHandles_singleOwner : SingleOwner twoHandles := by
  intro a b ta tb ha hb hab hnz heq
  simp only [twoHandles, Store.put, Store.empty] at ha hb
  split_ifs at ha hb <;> simp_all <;> (subst ha; subst hb; simp at heq)

/-- C4: single ownership is an invariant of the live handles: if no two distinct
live `OwningTexture` handles hold the same texture id other than `0`, then any
move construction (of a new handle from a live one), any move assignment between
live handles (also of a handle to itself) and any destruction of a live handle
(whatever its destructor releases) runs and leaves handles of which this is
still so. -/
theorem single_owner_is_invariant (body : OwningTexture → List TextureId)
    (w : World) (a b : Addr) (hinv : SingleOwner w.objs) :
    (w.objs a = none → (w.objs b).isSome →
      ∃ w', w.moveCtor a b = some w' ∧ SingleOwner w'.objs) ∧
    ((w.objs a).isSome → (w.objs b).isSome →
      ∃ w', w.moveAssign a b = some w' ∧ SingleOwner w'.objs) ∧
    ((w.objs a).isSome →
      ∃ w', w.destroyWith body a = some w' ∧ SingleOwner w'.objs) := by
  refine ⟨?_, ?_, ?_⟩
  · intro ha hb
    obtain ⟨o, ho⟩ := Option.isSome_iff_exists.mp hb
    have hs := moveCtor_fresh w.objs a b o ha ho
    exact ⟨⟨(w.objs.put a ⟨o.mId, o.mWidth, o.mHeight⟩).put b { o with mId := 0 }, w.released⟩,
      by simp only [World.moveCtor, hs, Option.map],
      singleOwner_moveCtor w.objs _ a b hinv hs⟩
  · intro ha hb
    obtain ⟨d, hd⟩ := Option.isSome_iff_exists.mp ha
    obtain ⟨o, ho⟩ := Option.isSome_iff_exists.mp hb
    by_cases hab : a = b
    · subst hab
      have hs := moveAssign_self w.objs a d hd
      exact ⟨⟨w.objs.put a { d with mId := 0 }, w.released⟩,
        by simp only [World.moveAssign, hs, Option.map],
        singleOwner_moveAssign w.objs _ a a hinv hs⟩
    · have hs := moveAssign_distinct w.objs a b d o hd ho hab
      exact ⟨⟨(w.objs.put a ⟨o.mId, o.mWidth, o.mHeight⟩).put b { o with mId := 0 },
          w.released⟩,
        by simp only [World.moveAssign, hs, Option.map],
        singleOwner_moveAssign w.objs _ a b hinv hs⟩
  · intro ha
    obtain ⟨t, ht⟩ := Option.isSome_iff_exists.mp ha
    exact ⟨⟨w.objs.erase a, w.released ++ (body t).map fun id => (a, id)⟩,
      by simp only [World.destroyWith, ht, Option.map],
      singleOwner_erase w.objs a hinv⟩

/-- Witness of C4: the two handles with the textures 5 and 7; the one at address 1
is moved into a new handle at address 2, or assigned to the handle at address 0,
or destroyed. -/
theorem single_owner_is_invariant_witness :
    SingleOwner twoHandlesWorld.objs ∧
    (∃ w', twoHandlesWorld.moveCtor 2 1 = some w' ∧ SingleOwner w'.objs) ∧
    (∃ w', twoHandlesWorld.moveAssign 0 1 = some w' ∧ SingleOwner w'.objs) ∧
    (∃ w', twoHandlesWorld.destroyWith dtorReleases 1 = some w' ∧ SingleOwner w'.objs) := by
  have h0 : (twoHandlesWorld.objs 0).isSome := by decide
  have h1 : (twoHandlesWorld.objs 1).isSome := by decide
  have h2 : twoHandlesWorld.objs 2 = none := by decide
  exact ⟨twoHandles_singleOwner,
    (single_owner_is_invariant dtorReleases twoHandlesWorld 2 1 twoHandles_singleOwner).1 h2 h1,
    (single_owner_is_invariant dtorReleases twoHandlesWorld 0 1 twoHandles_singleOwner).2.1
      h0 h1,
    (single_owner_is_invariant dtorReleases twoHandlesWorld 1 1 twoHandles_singleOwner).2.2
      h1⟩

/-! ## C2: one release per move chain -/

/-- C3 (evaluation of the code): the handle at address 0 owns texture 5, the handle
at address 1 owns texture 7.  The move assignment of the second to the first
makes no call of `destroyTexture` and leaves the handles with the ids 7 and 0, so
that no handle holds texture 5 any more; when both handles are then destroyed,
the only call of `destroyTexture` is the one for texture 7. -/
theorem move_assign_drops_owned_texture :
    (twoHandlesWorld.moveAssign 0 1).map (fun w => (w.released, w.objs 0, w.objs 1))
      = some ([], some ⟨7, 3, 4⟩, some ⟨0, 3, 4⟩) ∧
    ((twoHandlesWorld.moveAssign 0 1).bind fun w => w.destroyAll [1, 0]).map
        (fun w => w.released)
      = some [(0, 7)] := by
  constructor <;> decide

end Rigel
